import Mathlib

/-!
Verification of the CareerCraft scoring and matching engine.

The engine is shallowly embedded from the two application versions in the
repository (`consumer_careercraft_v2.py` and `consumer_careercraft_v2.1.py`).
Python dictionaries (the skill and career catalogs, the user-skill profile,
the practice-frequency profile) are modelled as association lists in
insertion order; module-level globals and session state consumed by a
function become explicit parameters.  Python's exact numeric tower is
modelled with `ℚ` (user ratings and required levels are integers, so every
arithmetic step of the engine is exact decimal arithmetic).
-/

/-- Python's `str.lower()`, modelled characterwise. -/
def pyLower (s : String) : String := ⟨s.data.map Char.toLower⟩

/-- Python's `str.strip()`: drop leading and trailing whitespace. -/
def pyStrip (s : String) : String :=
  ⟨((s.data.dropWhile Char.isWhitespace).reverse.dropWhile Char.isWhitespace).reverse⟩

/-- The normalization `(freq or "").lower().strip()` applied by
`practice_weight`; a missing label (Python `None`) becomes the empty
string. -/
def normalize_freq (freq : Option String) : String := pyStrip (pyLower (freq.getD ""))

/-- Practice-frequency weighting, embedded from v2.1 `practice_weight`:
the label is normalized with `(freq or "").lower().strip()` and looked up
in three synonym lists; anything unrecognized gets the neutral weight
1.0. -/
def practice_weight (freq : Option String) : ℚ :=
  if normalize_freq freq ∈ ["often", "weekly", "daily", "weekly+"] then 1.2
  else if normalize_freq freq ∈ ["sometimes", "monthly", "a few times"] then 1
  else if normalize_freq freq ∈ ["rarely", "never", "rarely/never"] then 0.8
  else 1

/-- Effective skill level after the practice-frequency adjustment, embedded
from v2.1 `calculate_effective_level`. -/
def calculate_effective_level (base_level : ℤ) (practice_freq : Option String) : ℚ :=
  min 100 (base_level * practice_weight practice_freq)

/-- Readiness bands, embedded from v2.1 `get_readiness_band`: the returned
tuple is (band name, honest-odds label, color). -/
def get_readiness_band (readiness_score : ℚ) : String × String × String :=
  if readiness_score ≥ 75 then
    ("balanced", "Balanced path (about 1 in 2 if you follow through)", "#2ecc71")
  else if readiness_score ≥ 55 then
    ("stretch", "Stretch path (about 1 in 3-4 if you commit seriously)", "#f39c12")
  else
    ("long_shot", "Long-shot path (about 1 in 5+; consider alternatives)", "#e74c3c")

/-- Reference definition of the practice-weight contract written from the
spec's words (§4.1): normalize the label (missing value treated as the empty
string, lowercased, trimmed), then test it against the three synonym sets,
defaulting to the neutral 1.0. -/
def practice_weight_spec (freq : Option String) : ℚ :=
  if normalize_freq freq = "often" ∨ normalize_freq freq = "weekly" ∨
     normalize_freq freq = "daily" ∨ normalize_freq freq = "weekly+" then 1.2
  else if normalize_freq freq = "sometimes" ∨ normalize_freq freq = "monthly" ∨
          normalize_freq freq = "a few times" then 1
  else if normalize_freq freq = "rarely" ∨ normalize_freq freq = "never" ∨
          normalize_freq freq = "rarely/never" then 0.8
  else 1

/-- The practice weight is always one of the three published multipliers. -/
theorem practice_weight_cases (freq : Option String) :
    practice_weight freq = 1.2 ∨ practice_weight freq = 1 ∨ practice_weight freq = 0.8 := by
  unfold practice_weight
  split_ifs <;> norm_num

/-- The practice weight is always positive. -/
theorem practice_weight_pos (freq : Option String) : 0 < practice_weight freq := by
  rcases practice_weight_cases freq with h | h | h <;> rw [h] <;> norm_num

/-- Claim C3: the practice-weight function equals the reference definition
from the spec on every input: the label is normalized (trimmed, lowercased,
with a missing value treated as the empty string) before lookup, the three
synonym sets map to 1.2, 1.0 and 0.8 respectively, and every other input —
including the empty string and a missing value — returns 1.0; in particular
the case variant "OFTEN" returns 1.2. -/
theorem practice_weight_matches_spec :
    (∀ freq : Option String, practice_weight freq = practice_weight_spec freq) ∧
    practice_weight (some "OFTEN") = 1.2 ∧
    practice_weight (some "") = 1 ∧
    practice_weight none = 1 := by
  refine ⟨fun freq => ?_, rfl, rfl, rfl⟩
  unfold practice_weight practice_weight_spec
  simp only [List.mem_cons, List.not_mem_nil, or_false]

/-- Claim C4: the effective level is `min 100 (base × weight label)`, and for
every integer base rating in [0, 100] it lies in [0, 100]; in particular a
skill rated 90 and practiced "often" is capped at 100, not 108. -/
theorem calculate_effective_level_bounds (base : ℤ) (freq : Option String)
    (h0 : 0 ≤ base) (_h100 : base ≤ 100) :
    calculate_effective_level base freq = min 100 (base * practice_weight freq) ∧
    0 ≤ calculate_effective_level base freq ∧
    calculate_effective_level base freq ≤ 100 ∧
    calculate_effective_level 90 (some "often") = 100 := by
  have hw := practice_weight_pos freq
  have hb : (0 : ℚ) ≤ (base : ℚ) := by exact_mod_cast h0
  refine ⟨rfl, ?_, ?_, ?_⟩
  · unfold calculate_effective_level
    have : (0 : ℚ) ≤ (base : ℚ) * practice_weight freq :=
      mul_nonneg hb (le_of_lt hw)
    exact le_min (by norm_num) this
  · unfold calculate_effective_level
    exact min_le_left _ _
  · have h12 : practice_weight (some "often") = 1.2 := rfl
    unfold calculate_effective_level
    rw [h12]
    norm_num [min_def]

/-- Witness for C4 at base 90 with label "often". -/
theorem calculate_effective_level_bounds_witness :
    0 ≤ calculate_effective_level 90 (some "often") ∧
    calculate_effective_level 90 (some "often") ≤ 100 :=
  ⟨(calculate_effective_level_bounds 90 (some "often") (by norm_num) (by norm_num)).2.1,
   (calculate_effective_level_bounds 90 (some "often") (by norm_num) (by norm_num)).2.2.1⟩

/-- Claim C5: the band name is "balanced" exactly when the score is ≥ 75,
"stretch" exactly when 55 ≤ score < 75, and "long_shot" exactly when
score < 55; both lower bounds are inclusive, as the four quoted boundary
evaluations show. -/
theorem get_readiness_band_boundaries (score : ℚ) :
    ((get_readiness_band score).1 = "balanced" ↔ 75 ≤ score) ∧
    ((get_readiness_band score).1 = "stretch" ↔ 55 ≤ score ∧ score < 75) ∧
    ((get_readiness_band score).1 = "long_shot" ↔ score < 55) ∧
    (get_readiness_band 75).1 = "balanced" ∧
    (get_readiness_band (74.9 : ℚ)).1 = "stretch" ∧
    (get_readiness_band 55).1 = "stretch" ∧
    (get_readiness_band (54.9 : ℚ)).1 = "long_shot" := by
  refine ⟨?_, ?_, ?_, by norm_num [get_readiness_band], by norm_num [get_readiness_band],
    by norm_num [get_readiness_band], by norm_num [get_readiness_band]⟩ <;>
    unfold get_readiness_band <;>
    split_ifs with h1 h2 <;>
    simp only [] <;>
    constructor <;>
    intro h <;>
    first
      | linarith
      | (exact absurd h (by decide))
      | (constructor <;> linarith)

/-- Gap priority tiers used by the gap calculator. -/
inductive Priority where
  | High
  | Medium
  | Low
deriving DecidableEq, Repr

/-- One per-(career, skill) gap record, with the fields of the dictionaries
built by `calculate_skill_gaps`. -/
structure GapRecord where
  user_level : ℤ
  required_level : ℤ
  gap : ℤ
  priority : Priority
deriving DecidableEq, Repr

/-- A course option from the skills catalog. -/
structure CourseOption where
  name : String
  cost : ℤ
  duration : String
  roi : ℤ
deriving DecidableEq, Repr

/-- A skills-catalog entry (`SKILLS_DATA` value); only the fields the
embedded engine functions read are carried. -/
structure SkillData where
  salary_premium : ℤ
  demand_trend : String
  courses : List CourseOption
deriving DecidableEq, Repr

/-- A careers-catalog entry (`CAREER_DATA` value); `skills` is the
required-skills dictionary in insertion order. -/
structure CareerData where
  category : String
  skills : List (String × ℤ)
  median_salary : ℤ
  growth_rate : ℚ
  education : String
  time_to_entry : String
deriving DecidableEq, Repr

/-- Dictionary lookup on an association list in insertion order, the model
of Python's `d[k]` / `k in d` / `d.get(k, default)`. -/
def dget {α : Type} (m : List (String × α)) (k : String) : Option α :=
  match m with
  | [] => none
  | (k', v) :: rest => if k' = k then some v else dget rest k

/-- Gap record construction for one required skill, embedded from the loop
body of `calculate_skill_gaps` (identical in v2 and v2.1): `gap` is clamped
at 0 while the priority thresholds test the unclamped difference. -/
def mkGapRecord (user_level required_level : ℤ) : GapRecord :=
  { user_level := user_level
    required_level := required_level
    gap := max 0 (required_level - user_level)
    priority :=
      if required_level - user_level > 30 then Priority.High
      else if required_level - user_level > 15 then Priority.Medium
      else Priority.Low }

/-- Embedded from `calculate_skill_gaps` (identical in v2 and v2.1): an
unknown career yields the empty map; otherwise one record per required
skill of the career, an unrated skill defaulting to user level 0.  The
career catalog (`CAREER_DATA`, a module-level global in the source) is
passed explicitly. -/
def calculate_skill_gaps (career_data : List (String × CareerData))
    (user_skills : List (String × ℤ)) (target_career : String) :
    List (String × GapRecord) :=
  match dget career_data target_career with
  | none => []
  | some data =>
      data.skills.map fun p => (p.1, mkGapRecord ((dget user_skills p.1).getD 0) p.2)

/-- The ROI record returned by `calculate_skill_roi`. -/
structure RoiRecord where
  skill : String
  current_level : ℤ
  target_level : ℤ
  improvement_needed : ℤ
  potential_salary_increase : ℚ
  demand_trend : String
  courses : List CourseOption
deriving DecidableEq, Repr

/-- Embedded from `calculate_skill_roi` (identical in v2 and v2.1): `none`
models Python's `None` for a skill missing from the skills catalog, which
is passed explicitly in place of the global `SKILLS_DATA`. -/
def calculate_skill_roi (skills_data : List (String × SkillData))
    (skill_name : String) (current_level target_level : ℤ) : Option RoiRecord :=
  match dget skills_data skill_name with
  | none => none
  | some skill_info =>
      some
        { skill := skill_name
          current_level := current_level
          target_level := target_level
          improvement_needed := target_level - current_level
          potential_salary_increase :=
            ((target_level - current_level : ℤ) : ℚ) / 100 * skill_info.salary_premium
          demand_trend := skill_info.demand_trend
          courses := skill_info.courses }

/-- Looking a key up in a dictionary that rewrites each value in place
commutes with the rewrite. -/
theorem dget_map {β γ : Type} (l : List (String × β)) (f : String → β → γ) (k : String) :
    dget (l.map fun p => (p.1, f p.1 p.2)) k = (dget l k).map (f k) := by
  induction l with
  | nil => rfl
  | cons p rest ih =>
      by_cases h : p.1 = k
      · subst h
        simp [dget]
      · simp [dget, h, ih]

/-- Keys of a value-rewriting map are unchanged. -/
theorem map_fst_map {β γ : Type} (l : List (String × β)) (f : String → β → γ) :
    (l.map fun p => (p.1, f p.1 p.2)).map Prod.fst = l.map Prod.fst := by
  induction l with
  | nil => rfl
  | cons p rest ih => simp [ih]

/-- Claim C2: for a career present in the catalog, the gap calculator
returns records for exactly the career's required skills (a skill the
career does not require is absent from the result); an unrated skill is
treated as user level 0; each record carries gap = max(0, required − user)
and priority High exactly when the shortfall exceeds 30, Medium exactly
when it lies in (15, 30], and Low otherwise, so an over-qualified skill
yields gap 0 and priority Low. -/
theorem calculate_skill_gaps_spec
    (career_data : List (String × CareerData)) (user_skills : List (String × ℤ))
    (career : String) (data : CareerData)
    (hc : dget career_data career = some data) :
    ((calculate_skill_gaps career_data user_skills career).map Prod.fst
        = data.skills.map Prod.fst) ∧
    (∀ skill : String, dget data.skills skill = none →
        dget (calculate_skill_gaps career_data user_skills career) skill = none) ∧
    (∀ (skill : String) (r : ℤ), dget data.skills skill = some r →
      ∃ rec : GapRecord,
        dget (calculate_skill_gaps career_data user_skills career) skill = some rec ∧
        rec.user_level = (dget user_skills skill).getD 0 ∧
        rec.required_level = r ∧
        rec.gap = max 0 (r - (dget user_skills skill).getD 0) ∧
        (rec.priority = Priority.High ↔ 30 < r - (dget user_skills skill).getD 0) ∧
        (rec.priority = Priority.Medium ↔
          15 < r - (dget user_skills skill).getD 0 ∧
            r - (dget user_skills skill).getD 0 ≤ 30) ∧
        (rec.priority = Priority.Low ↔ r - (dget user_skills skill).getD 0 ≤ 15) ∧
        (r ≤ (dget user_skills skill).getD 0 →
          rec.gap = 0 ∧ rec.priority = Priority.Low)) := by
  have hg : calculate_skill_gaps career_data user_skills career
      = data.skills.map fun p => (p.1, mkGapRecord ((dget user_skills p.1).getD 0) p.2) := by
    unfold calculate_skill_gaps
    rw [hc]
  rw [hg]
  refine ⟨map_fst_map data.skills (fun k v => mkGapRecord ((dget user_skills k).getD 0) v),
    fun skill hnone => ?_, fun skill r hr => ?_⟩
  · rw [dget_map data.skills (fun k v => mkGapRecord ((dget user_skills k).getD 0) v), hnone]
    rfl
  · rw [dget_map data.skills (fun k v => mkGapRecord ((dget user_skills k).getD 0) v), hr]
    refine ⟨mkGapRecord ((dget user_skills skill).getD 0) r, rfl, rfl, rfl, rfl, ?_, ?_, ?_, ?_⟩ <;>
      unfold mkGapRecord <;>
      split_ifs with h1 h2 <;>
      first
        | (constructor <;> intro hx <;>
            first | omega | (simp_all <;> omega) | (exfalso; omega))
        | (intro hx
           constructor <;> first | (simp_all <;> omega) | omega | (exfalso; omega))

/-- Sample two-career catalog used by concrete witnesses: the spec §8 gap
scenario plus a second career sharing skill "B" at a different level. -/
def sampleCareers : List (String × CareerData) :=
  [("Data Analyst",
    { category := "Technology"
      skills := [("A", 80), ("B", 50)]
      median_salary := 103500
      growth_rate := 35
      education := "Bachelor's Degree"
      time_to_entry := "12-36 months" }),
   ("QA Tester",
    { category := "Technology"
      skills := [("B", 90), ("C", 40)]
      median_salary := 90000
      growth_rate := 10
      education := "Bachelor's Degree"
      time_to_entry := "6-12 months" })]

/-- Sample user profile for witnesses: "A" rated 50, "B" and "C" unrated. -/
def sampleUser : List (String × ℤ) := [("A", 50)]

/-- Witness for C2 on the spec §8 scenario: career requiring A:80, B:50
against a user rating only A at 50; skill "B" (unrated) gets gap 50. -/
theorem calculate_skill_gaps_spec_witness :
    ∃ rec : GapRecord,
      dget (calculate_skill_gaps sampleCareers sampleUser "Data Analyst") "B" = some rec ∧
      rec.user_level = (dget sampleUser "B").getD 0 ∧
      rec.required_level = 50 ∧
      rec.gap = max 0 (50 - (dget sampleUser "B").getD 0) ∧
      (rec.priority = Priority.High ↔ 30 < 50 - (dget sampleUser "B").getD 0) ∧
      (rec.priority = Priority.Medium ↔
        15 < 50 - (dget sampleUser "B").getD 0 ∧ 50 - (dget sampleUser "B").getD 0 ≤ 30) ∧
      (rec.priority = Priority.Low ↔ 50 - (dget sampleUser "B").getD 0 ≤ 15) ∧
      (50 ≤ (dget sampleUser "B").getD 0 → rec.gap = 0 ∧ rec.priority = Priority.Low) :=
  (calculate_skill_gaps_spec sampleCareers sampleUser "Data Analyst" _ rfl).2.2 "B" 50 rfl

/-- One ranked career entry produced by the matchers (the dictionary
appended to `matches` in both source versions). -/
structure CareerMatch where
  career : String
  category : String
  match_pct : ℚ
  salary : ℤ
  growth : ℚ
  high_skill_gaps : ℕ
  education : String
  time_to_entry : String
deriving DecidableEq, Repr

/-- The per-skill match ratio of the v2.1 matcher and the v2.1 sidebar
readiness: `min(effective_level / required, 1.0) if required > 0 else 1.0`,
with the user level defaulting to 0 and the practice frequency defaulting
to "Sometimes". -/
def skill_match (user_skills : List (String × ℤ)) (practice_freq : List (String × String))
    (p : String × ℤ) : ℚ :=
  if p.2 > 0 then
    min (calculate_effective_level ((dget user_skills p.1).getD 0)
      (some ((dget practice_freq p.1).getD "Sometimes")) / (p.2 : ℚ)) 1
  else 1

/-- The per-skill match ratio of the v2 matcher: identical except that the
raw user rating is used in place of the effective level. -/
def skill_match_raw (user_skills : List (String × ℤ)) (p : String × ℤ) : ℚ :=
  if p.2 > 0 then min ((((dget user_skills p.1).getD 0 : ℤ) : ℚ) / (p.2 : ℚ)) 1
  else 1

/-- The per-skill weight `required / 100` used by both matchers. -/
def skill_weight (p : String × ℤ) : ℚ := (p.2 : ℚ) / 100

/-- One iteration of the v2.1 matcher's skill loop, accumulating
(total_match, total_weight). -/
def matchStep (user_skills : List (String × ℤ)) (practice_freq : List (String × String))
    (acc : ℚ × ℚ) (p : String × ℤ) : ℚ × ℚ :=
  (acc.1 + skill_match user_skills practice_freq p * skill_weight p,
   acc.2 + skill_weight p)

/-- One iteration of the v2 matcher's skill loop. -/
def matchStepV2 (user_skills : List (String × ℤ)) (acc : ℚ × ℚ) (p : String × ℤ) : ℚ × ℚ :=
  (acc.1 + skill_match_raw user_skills p * skill_weight p,
   acc.2 + skill_weight p)

/-- The v2.1 matcher's per-career match percentage:
`total_match / total_weight * 100 if total_weight > 0 else 0`. -/
def career_match_pct (user_skills : List (String × ℤ))
    (practice_freq : List (String × String)) (data : CareerData) : ℚ :=
  let totals := data.skills.foldl (matchStep user_skills practice_freq) (0, 0)
  if totals.2 > 0 then totals.1 / totals.2 * 100 else 0

/-- The v2 matcher's per-career match percentage. -/
def career_match_pct_v2 (user_skills : List (String × ℤ)) (data : CareerData) : ℚ :=
  let totals := data.skills.foldl (matchStepV2 user_skills) (0, 0)
  if totals.2 > 0 then totals.1 / totals.2 * 100 else 0

/-- The match-record dictionary appended for one career by both matchers
(they build identical fields; only `match_pct` differs). -/
def mkCareerMatch (career_data : List (String × CareerData))
    (user_skills : List (String × ℤ)) (career : String) (data : CareerData)
    (pct : ℚ) : CareerMatch :=
  { career := career
    category := data.category
    match_pct := pct
    salary := data.median_salary
    growth := data.growth_rate
    high_skill_gaps :=
      ((calculate_skill_gaps career_data user_skills career).filter
        fun g => decide (g.2.priority = Priority.High)).length
    education := data.education
    time_to_entry := data.time_to_entry }

/-- The unsorted `matches` list built by the v2.1 matcher's loop over the
catalog (one entry per career whose category is selected), before the
final sort. -/
def matchCandidates (user_skills : List (String × ℤ)) (target_industries : List String)
    (practice_freq : List (String × String))
    (career_data : List (String × CareerData)) : List CareerMatch :=
  career_data.filterMap fun p =>
    if p.2.category ∈ target_industries then
      some (mkCareerMatch career_data user_skills p.1 p.2
        (career_match_pct user_skills practice_freq p.2))
    else none

/-- The unsorted `matches` list built by the v2 matcher's loop. -/
def matchCandidatesV2 (user_skills : List (String × ℤ)) (target_industries : List String)
    (career_data : List (String × CareerData)) : List CareerMatch :=
  career_data.filterMap fun p =>
    if p.2.category ∈ target_industries then
      some (mkCareerMatch career_data user_skills p.1 p.2
        (career_match_pct_v2 user_skills p.2))
    else none

/-- Embedded from v2.1 `get_career_matches`: filter the career catalog to
the selected categories, score each career, and sort by `match_pct`
descending with Python's stable sort (`matches.sort(key=..., reverse=True)`,
modelled by the stable `List.mergeSort`).  The session-state practice
frequencies and the global catalog are passed explicitly. -/
def get_career_matches (user_skills : List (String × ℤ)) (target_industries : List String)
    (practice_freq : List (String × String))
    (career_data : List (String × CareerData)) : List CareerMatch :=
  (matchCandidates user_skills target_industries practice_freq career_data).mergeSort
    fun a b => decide (b.match_pct ≤ a.match_pct)

/-- Embedded from v2 `get_career_matches`: identical to the v2.1 matcher
except that the per-skill match uses the raw user rating (v2 has no
practice-frequency weighting anywhere). -/
def get_career_matches_v2 (user_skills : List (String × ℤ)) (target_industries : List String)
    (career_data : List (String × CareerData)) : List CareerMatch :=
  (matchCandidatesV2 user_skills target_industries career_data).mergeSort
    fun a b => decide (b.match_pct ≤ a.match_pct)

/-- The §4.4a weighted-match formula written from the spec's words, the
reference expression claim C1 asserts: `(Σ match_i·weight_i) / (Σ weight_i)
× 100` with `match_i` computed from the practice-adjusted effective level
and `weight_i = required_i / 100`. -/
def weighted_match_spec (user_skills : List (String × ℤ))
    (practice_freq : List (String × String)) (data : CareerData) : ℚ :=
  (data.skills.map fun p => skill_match user_skills practice_freq p * skill_weight p).sum
    / (data.skills.map skill_weight).sum * 100

/-- Folding the pairwise accumulation of two component functions is the
pair of componentwise sums. -/
theorem foldl_pair_eq {α : Type} (f g : α → ℚ) (l : List α) (a b : ℚ) :
    l.foldl (fun acc x => (acc.1 + f x, acc.2 + g x)) (a, b)
      = (a + (l.map f).sum, b + (l.map g).sum) := by
  induction l generalizing a b with
  | nil => simp
  | cons x xs ih => simp [ih, add_assoc]

/-- The v2.1 matcher's skill loop accumulates exactly the two sums of the
§4.4a formula. -/
theorem matchStep_foldl (user_skills : List (String × ℤ))
    (practice_freq : List (String × String)) (l : List (String × ℤ)) :
    l.foldl (matchStep user_skills practice_freq) (0, 0)
      = ((l.map fun p => skill_match user_skills practice_freq p * skill_weight p).sum,
         (l.map skill_weight).sum) := by
  have h : matchStep user_skills practice_freq = fun acc p =>
      (acc.1 + skill_match user_skills practice_freq p * skill_weight p,
       acc.2 + skill_weight p) := rfl
  rw [h, foldl_pair_eq]
  simp

/-- The v2 matcher's skill loop accumulates the raw-rating sums. -/
theorem matchStepV2_foldl (user_skills : List (String × ℤ)) (l : List (String × ℤ)) :
    l.foldl (matchStepV2 user_skills) (0, 0)
      = ((l.map fun p => skill_match_raw user_skills p * skill_weight p).sum,
         (l.map skill_weight).sum) := by
  have h : matchStepV2 user_skills = fun acc p =>
      (acc.1 + skill_match_raw user_skills p * skill_weight p,
       acc.2 + skill_weight p) := rfl
  rw [h, foldl_pair_eq]
  simp

/-- Career catalog for the C1 counterexample: one Technology career
requiring only skill "A" at level 100. -/
def cexData : CareerData :=
  { category := "Technology"
    skills := [("A", 100)]
    median_salary := 124200
    growth_rate := 25
    education := "Bachelor's Degree"
    time_to_entry := "6-24 months" }

/-- The one-entry catalog for the C1 counterexample. -/
def cexCareers : List (String × CareerData) := [("X", cexData)]

/-- Counterexample to claim C1 as stated: the claim describes "the career
matcher" of both cited source versions as computing its per-skill match
from the practice-adjusted effective level, but the v2 matcher
(`get_career_matches` in consumer_careercraft_v2.py) uses the raw rating.
For a user rating skill "A" at 90 practiced "often" against a career
requiring A at 100, the claim's formula gives 100 (effective level capped
at 100) while the v2 matcher returns 90. -/
theorem get_career_matches_v2_raw_rating_cex :
    (get_career_matches_v2 [("A", 90)] ["Technology"] cexCareers).map
        CareerMatch.match_pct = [90] ∧
    weighted_match_spec [("A", 90)] [("A", "often")] cexData = 100 ∧
    (90 : ℚ) ≠ 100 := by
  have hw : practice_weight (some "often") = 1.2 := rfl
  refine ⟨?_, ?_, by norm_num⟩
  · unfold get_career_matches_v2 matchCandidatesV2 career_match_pct_v2
    norm_num [cexCareers, cexData, mkCareerMatch, matchStepV2, skill_match_raw, skill_weight,
      dget, min_def, List.filterMap_cons, List.filterMap_nil]
  · unfold weighted_match_spec
    norm_num [cexData, skill_match, skill_weight, dget, calculate_effective_level, hw, min_def]

/-- Claim C1 (amended): whenever the career's total weight Σ required_i/100
is positive, the v2.1 matcher's match percentage equals
(Σ match_i·weight_i) / (Σ weight_i) × 100 with match_i computed from the
practice-adjusted effective level; when the total weight is 0 the match
percentage is 0; the v2 matcher satisfies the same two equations with the
raw rating in place of the effective level; and every entry returned by
the v2.1 matcher carries the match percentage of its own catalog entry. -/
theorem career_match_pct_formula (user_skills : List (String × ℤ))
    (practice_freq : List (String × String)) (data : CareerData)
    (target_industries : List String) (career_data : List (String × CareerData)) :
    (0 < (data.skills.map skill_weight).sum →
      career_match_pct user_skills practice_freq data
        = (data.skills.map fun p =>
            skill_match user_skills practice_freq p * skill_weight p).sum
          / (data.skills.map skill_weight).sum * 100) ∧
    ((data.skills.map skill_weight).sum = 0 →
      career_match_pct user_skills practice_freq data = 0) ∧
    (0 < (data.skills.map skill_weight).sum →
      career_match_pct_v2 user_skills data
        = (data.skills.map fun p => skill_match_raw user_skills p * skill_weight p).sum
          / (data.skills.map skill_weight).sum * 100) ∧
    ((data.skills.map skill_weight).sum = 0 →
      career_match_pct_v2 user_skills data = 0) ∧
    (∀ m ∈ get_career_matches user_skills target_industries practice_freq career_data,
      ∃ p ∈ career_data, p.1 = m.career ∧
        m.match_pct = career_match_pct user_skills practice_freq p.2) := by
  refine ⟨fun h => ?_, fun h => ?_, fun h => ?_, fun h => ?_, fun m hm => ?_⟩
  · unfold career_match_pct
    rw [matchStep_foldl]
    dsimp only
    split_ifs with hc
    · rfl
    · exact absurd h hc
  · unfold career_match_pct
    rw [matchStep_foldl]
    dsimp only
    split_ifs with hc
    · exact absurd hc (by rw [h]; exact lt_irrefl 0)
    · rfl
  · unfold career_match_pct_v2
    rw [matchStepV2_foldl]
    dsimp only
    split_ifs with hc
    · rfl
    · exact absurd h hc
  · unfold career_match_pct_v2
    rw [matchStepV2_foldl]
    dsimp only
    split_ifs with hc
    · exact absurd hc (by rw [h]; exact lt_irrefl 0)
    · rfl
  · unfold get_career_matches matchCandidates at hm
    rw [List.mem_mergeSort, List.mem_filterMap] at hm
    obtain ⟨p, hp, hpm⟩ := hm
    refine ⟨p, hp, ?_⟩
    by_cases hcat : p.2.category ∈ target_industries
    · rw [if_pos hcat] at hpm
      have he := Option.some.inj hpm
      subst he
      exact ⟨rfl, rfl⟩
    · rw [if_neg hcat] at hpm
      cases hpm

/-- Witness for the C1 amended theorem on the counterexample career: its
total weight is 1, and the v2.1 match percentage equals the formula. -/
theorem career_match_pct_formula_witness :
    career_match_pct [("A", 90)] [("A", "often")] cexData
      = (cexData.skills.map fun p =>
          skill_match [("A", 90)] [("A", "often")] p * skill_weight p).sum
        / (cexData.skills.map skill_weight).sum * 100 :=
  (career_match_pct_formula [("A", 90)] [("A", "often")] cexData [] []).1
    (by norm_num [cexData, skill_weight])

/-- One iteration of the v2.1 sidebar readiness loop (Quick Stats): the
unweighted per-skill match ratio is accumulated. -/
def readinessStep (user_skills : List (String × ℤ))
    (practice_freq : List (String × String)) (acc : ℚ) (p : String × ℤ) : ℚ :=
  acc + skill_match user_skills practice_freq p

/-- Readiness score of one target career, embedded from the v2.1 sidebar
Quick Stats loop: `(total_match / len(career_skills)) * 100`. -/
def career_readiness (user_skills : List (String × ℤ))
    (practice_freq : List (String × String)) (data : CareerData) : ℚ :=
  data.skills.foldl (readinessStep user_skills practice_freq) 0
    / (data.skills.length : ℚ) * 100

/-- The sidebar's displayed readiness, embedded from the v2.1 Quick Stats
block: the mean of the per-target-career scores over targets present in
the catalog (`np.mean(readiness_scores) if readiness_scores else 0`). -/
def quick_stats_readiness (user_skills : List (String × ℤ))
    (practice_freq : List (String × String)) (career_data : List (String × CareerData))
    (target_careers : List String) : ℚ :=
  let readiness_scores := target_careers.filterMap fun c =>
    (dget career_data c).map fun data => career_readiness user_skills practice_freq data
  if readiness_scores.isEmpty then 0
  else readiness_scores.sum / (readiness_scores.length : ℚ)

/-- Career for the C6 asymmetric example: requirements {A: 100, B: 20}. -/
def c6Data : CareerData :=
  { category := "Technology"
    skills := [("A", 100), ("B", 20)]
    median_salary := 0
    growth_rate := 0
    education := ""
    time_to_entry := "" }

/-- Counterexample to claim C6 as stated: non-uniform skill requirements do
not force the weighted match and the unweighted readiness apart — a user
fully meeting both requirements of {A: 100, B: 20} (with the default
practice frequency) receives 100 from both computations. -/
theorem weighted_vs_readiness_agree_cex :
    dget c6Data.skills "A" = some 100 ∧
    dget c6Data.skills "B" = some 20 ∧
    (100 : ℤ) ≠ 20 ∧
    career_match_pct [("A", 100), ("B", 20)] [] c6Data = 100 ∧
    career_readiness [("A", 100), ("B", 20)] [] c6Data = 100 := by
  have hw : practice_weight (some "Sometimes") = 1 := rfl
  have hAB : ("A" : String) ≠ "B" := by decide
  refine ⟨rfl, rfl, by norm_num, ?_, ?_⟩
  · unfold career_match_pct
    norm_num [c6Data, matchStep, skill_match, skill_weight, dget,
      calculate_effective_level, hw, hAB, min_def]
  · unfold career_readiness
    norm_num [c6Data, readinessStep, skill_match, dget,
      calculate_effective_level, hw, hAB, min_def]

/-- Claim C6 (amended): the weighted match and the unweighted readiness are
genuinely different aggregations — on the spec's asymmetric example, a
career requiring {A: 100, B: 20} and a user with A = 100 and B = 0, both
skills practiced under the same frequency label (whatever it is), the
weighted match percentage is strictly greater than the unweighted
readiness score; but non-uniform requirements alone do not force the two
numbers apart. -/
theorem weighted_match_gt_readiness (f : String) :
    career_readiness [("A", 100), ("B", 0)] [("A", f), ("B", f)] c6Data
      < career_match_pct [("A", 100), ("B", 0)] [("A", f), ("B", f)] c6Data := by
  have hAB : ("A" : String) ≠ "B" := by decide
  rcases practice_weight_cases (some f) with h | h | h <;>
    · unfold career_readiness career_match_pct
      norm_num [c6Data, matchStep, readinessStep, skill_match, skill_weight, dget,
        calculate_effective_level, h, hAB, min_def]

/-- The descending match-percentage comparison is transitive. -/
theorem descLe_trans (a b c : CareerMatch)
    (hab : decide (b.match_pct ≤ a.match_pct) = true)
    (hbc : decide (c.match_pct ≤ b.match_pct) = true) :
    decide (c.match_pct ≤ a.match_pct) = true := by
  simp only [decide_eq_true_eq] at *
  exact le_trans hbc hab

/-- The descending match-percentage comparison is total. -/
theorem descLe_total (a b : CareerMatch) :
    (decide (b.match_pct ≤ a.match_pct) || decide (a.match_pct ≤ b.match_pct)) = true := by
  simp only [Bool.or_eq_true, decide_eq_true_eq]
  exact le_total _ _

/-- Claim C9: career ranking is stable and deterministic, in both source
versions: the matcher output is exactly a permutation of the
category-filtered catalog scores, sorted by match percentage descending;
two filtered entries with equal match percentage keep their catalog
iteration order in the output (stable sort); and rerunning the matcher on
identical input returns the identical list. -/
theorem get_career_matches_sorted_stable (user_skills : List (String × ℤ))
    (target_industries : List String) (practice_freq : List (String × String))
    (career_data : List (String × CareerData)) :
    ((get_career_matches user_skills target_industries practice_freq career_data).Pairwise
        fun a b => b.match_pct ≤ a.match_pct) ∧
    ((get_career_matches user_skills target_industries practice_freq career_data).Perm
        (matchCandidates user_skills target_industries practice_freq career_data)) ∧
    (∀ a b : CareerMatch,
      [a, b].Sublist (matchCandidates user_skills target_industries practice_freq career_data) →
      a.match_pct = b.match_pct →
      [a, b].Sublist (get_career_matches user_skills target_industries practice_freq career_data)) ∧
    (get_career_matches user_skills target_industries practice_freq career_data
      = get_career_matches user_skills target_industries practice_freq career_data) ∧
    ((get_career_matches_v2 user_skills target_industries career_data).Pairwise
        fun a b => b.match_pct ≤ a.match_pct) ∧
    ((get_career_matches_v2 user_skills target_industries career_data).Perm
        (matchCandidatesV2 user_skills target_industries career_data)) ∧
    (∀ a b : CareerMatch,
      [a, b].Sublist (matchCandidatesV2 user_skills target_industries career_data) →
      a.match_pct = b.match_pct →
      [a, b].Sublist (get_career_matches_v2 user_skills target_industries career_data)) ∧
    (get_career_matches_v2 user_skills target_industries career_data
      = get_career_matches_v2 user_skills target_industries career_data) := by
  refine ⟨?_, ?_, ?_, rfl, ?_, ?_, ?_, rfl⟩
  · exact (List.sorted_mergeSort descLe_trans descLe_total _).imp
      fun h => of_decide_eq_true h
  · exact List.mergeSort_perm _ _
  · intro a b hsub heq
    exact List.pair_sublist_mergeSort descLe_trans descLe_total
      (decide_eq_true (le_of_eq heq.symm)) hsub
  · exact (List.sorted_mergeSort descLe_trans descLe_total _).imp
      fun h => of_decide_eq_true h
  · exact List.mergeSort_perm _ _
  · intro a b hsub heq
    exact List.pair_sublist_mergeSort descLe_trans descLe_total
      (decide_eq_true (le_of_eq heq.symm)) hsub

/-- Target career for the C9 tie witness. -/
def c9Data : CareerData :=
  { category := "T"
    skills := [("A", 50)]
    median_salary := 1
    growth_rate := 1
    education := ""
    time_to_entry := "" }

/-- Two-career catalog whose entries tie on match percentage. -/
def c9Careers : List (String × CareerData) := [("P", c9Data), ("Q", c9Data)]

/-- Witness for C9: the two tied careers "P" and "Q" keep their catalog
order in the ranked output. -/
theorem get_career_matches_sorted_stable_witness :
    [mkCareerMatch c9Careers [] "P" c9Data (career_match_pct [] [] c9Data),
     mkCareerMatch c9Careers [] "Q" c9Data (career_match_pct [] [] c9Data)].Sublist
      (get_career_matches [] ["T"] [] c9Careers) := by
  refine (get_career_matches_sorted_stable [] ["T"] [] c9Careers).2.2.1 _ _ ?_ rfl
  have hcand : matchCandidates [] ["T"] [] c9Careers
      = [mkCareerMatch c9Careers [] "P" c9Data (career_match_pct [] [] c9Data),
         mkCareerMatch c9Careers [] "Q" c9Data (career_match_pct [] [] c9Data)] := by
    unfold matchCandidates
    simp [c9Careers, List.filterMap_cons, show c9Data.category = "T" from rfl]
  rw [hcand]

/-- Sample skills catalog for witnesses. -/
def sampleSkills : List (String × SkillData) :=
  [("A",
    { salary_premium := 22000
      demand_trend := "High Growth"
      courses := [{ name := "Intro Course", cost := 0, duration := "8 weeks", roi := 250 }] })]

/-- Claim C8: no engine operation raises on an unknown reference, and each
returns its empty/zero/neutral value: an unknown career gives an empty gap
map, an unrecognized frequency label gives the neutral weight 1.0, an
unknown skill gives `None` from the ROI calculator, and a category set
matching no catalog entry gives an empty ranked list.  (In this embedding
every operation is a total function, so "never raises" holds by
construction; the conjuncts pin down the returned values.) -/
theorem unknown_reference_fail_open (career_data : List (String × CareerData))
    (skills_data : List (String × SkillData)) (user_skills : List (String × ℤ))
    (practice_freq : List (String × String)) :
    (∀ career : String, dget career_data career = none →
        calculate_skill_gaps career_data user_skills career = []) ∧
    (∀ freq : Option String,
        normalize_freq freq ∉ ["often", "weekly", "daily", "weekly+"] →
        normalize_freq freq ∉ ["sometimes", "monthly", "a few times"] →
        normalize_freq freq ∉ ["rarely", "never", "rarely/never"] →
        practice_weight freq = 1) ∧
    (∀ (skill : String) (cur tgt : ℤ), dget skills_data skill = none →
        calculate_skill_roi skills_data skill cur tgt = none) ∧
    (∀ target_industries : List String,
        (∀ p ∈ career_data, p.2.category ∉ target_industries) →
        get_career_matches user_skills target_industries practice_freq career_data = []) := by
  refine ⟨fun career h => ?_, fun freq h1 h2 h3 => ?_, fun skill cur tgt h => ?_,
    fun target_industries h => ?_⟩
  · unfold calculate_skill_gaps
    rw [h]
  · unfold practice_weight
    rw [if_neg h1, if_neg h2, if_neg h3]
  · unfold calculate_skill_roi
    rw [h]
  · unfold get_career_matches
    have hc : matchCandidates user_skills target_industries practice_freq career_data = [] := by
      unfold matchCandidates
      rw [List.filterMap_eq_nil_iff]
      intro p hp
      rw [if_neg (h p hp)]
    rw [hc]
    exact List.mergeSort_nil

/-- Witness for C8: unknown career "Nope", unrecognized label "yearly",
unknown skill "Zeta", and a category selection matching no catalog
entry. -/
theorem unknown_reference_fail_open_witness :
    calculate_skill_gaps sampleCareers sampleUser "Nope" = [] ∧
    practice_weight (some "yearly") = 1 ∧
    calculate_skill_roi sampleSkills "Zeta" 10 80 = none ∧
    get_career_matches sampleUser ["Nowhere"] [] sampleCareers = [] := by
  have h := unknown_reference_fail_open sampleCareers sampleSkills sampleUser []
  exact ⟨h.1 "Nope" rfl, h.2.1 (some "yearly") (by decide) (by decide) (by decide),
    h.2.2.1 "Zeta" 10 80 rfl, h.2.2.2 ["Nowhere"] (by decide)⟩

/-- Checked rational division: `none` models Python raising
`ZeroDivisionError`. -/
def qdiv (a b : ℚ) : Option ℚ := if b = 0 then none else some (a / b)

/-- Division-checked variant of the v2.1 per-skill match: the division by
the required level happens only under the `required > 0` guard. -/
def skill_match_chk (user_skills : List (String × ℤ)) (practice_freq : List (String × String))
    (p : String × ℤ) : Option ℚ :=
  if p.2 > 0 then
    (qdiv (calculate_effective_level ((dget user_skills p.1).getD 0)
      (some ((dget practice_freq p.1).getD "Sometimes"))) (p.2 : ℚ)).map fun q => min q 1
  else some 1

/-- Division-checked variant of the v2 per-skill match. -/
def skill_match_raw_chk (user_skills : List (String × ℤ)) (p : String × ℤ) : Option ℚ :=
  if p.2 > 0 then
    (qdiv ((((dget user_skills p.1).getD 0 : ℤ) : ℚ)) (p.2 : ℚ)).map fun q => min q 1
  else some 1

/-- Division-checked v2.1 matcher totals loop. -/
def matchTotalsChk (user_skills : List (String × ℤ)) (practice_freq : List (String × String))
    (skills : List (String × ℤ)) : Option (ℚ × ℚ) :=
  skills.foldl
    (fun acc p => acc.bind fun t =>
      (skill_match_chk user_skills practice_freq p).map fun m =>
        (t.1 + m * skill_weight p, t.2 + skill_weight p))
    (some (0, 0))

/-- Division-checked v2 matcher totals loop. -/
def matchTotalsV2Chk (user_skills : List (String × ℤ)) (skills : List (String × ℤ)) :
    Option (ℚ × ℚ) :=
  skills.foldl
    (fun acc p => acc.bind fun t =>
      (skill_match_raw_chk user_skills p).map fun m =>
        (t.1 + m * skill_weight p, t.2 + skill_weight p))
    (some (0, 0))

/-- Division-checked v2.1 sidebar readiness accumulation. -/
def readinessTotalChk (user_skills : List (String × ℤ))
    (practice_freq : List (String × String)) (skills : List (String × ℤ)) : Option ℚ :=
  skills.foldl
    (fun acc p => acc.bind fun t =>
      (skill_match_chk user_skills practice_freq p).map fun m => t + m)
    (some 0)

/-- Division-checked v2.1 per-career match percentage, with the final
aggregate division also checked (it sits under the `total_weight > 0`
guard in the source). -/
def career_match_pct_chk (user_skills : List (String × ℤ))
    (practice_freq : List (String × String)) (data : CareerData) : Option ℚ :=
  (matchTotalsChk user_skills practice_freq data.skills).bind fun t =>
    if t.2 > 0 then (qdiv t.1 t.2).map fun q => q * 100 else some 0

/-- Division-checked v2 per-career match percentage. -/
def career_match_pct_v2_chk (user_skills : List (String × ℤ)) (data : CareerData) :
    Option ℚ :=
  (matchTotalsV2Chk user_skills data.skills).bind fun t =>
    if t.2 > 0 then (qdiv t.1 t.2).map fun q => q * 100 else some 0

/-- A checked per-skill match never fails and agrees with the unchecked
one (v2.1 form). -/
theorem skill_match_chk_some (user_skills : List (String × ℤ))
    (practice_freq : List (String × String)) (p : String × ℤ) :
    skill_match_chk user_skills practice_freq p = some (skill_match user_skills practice_freq p) := by
  unfold skill_match_chk skill_match qdiv
  split_ifs with h h0
  · exact absurd h0 (by positivity)
  · rfl
  · rfl

/-- A checked per-skill match never fails and agrees with the unchecked
one (v2 form). -/
theorem skill_match_raw_chk_some (user_skills : List (String × ℤ)) (p : String × ℤ) :
    skill_match_raw_chk user_skills p = some (skill_match_raw user_skills p) := by
  unfold skill_match_raw_chk skill_match_raw qdiv
  split_ifs with h h0
  · exact absurd h0 (by positivity)
  · rfl
  · rfl

/-- Claim C10: in the career matcher of both source versions and in the
v2.1 sidebar readiness loop, every division by a required level is guarded
by `required > 0`: a skill required at level 0 contributes match 1.0
without any division and weight 0 in the weighted path, and the whole
division-checked computation (where a division by zero returns `none`,
modelling Python's `ZeroDivisionError`) always succeeds and returns the
unchecked value — so no division by zero occurs for any user profile,
practice mapping, or catalog entry. -/
theorem no_division_by_zero (user_skills : List (String × ℤ))
    (practice_freq : List (String × String)) (data : CareerData) :
    (∀ p : String × ℤ, p.2 = 0 →
      skill_match user_skills practice_freq p = 1 ∧
      skill_match_raw user_skills p = 1 ∧
      skill_weight p = 0) ∧
    (matchTotalsChk user_skills practice_freq data.skills
      = some (data.skills.foldl (matchStep user_skills practice_freq) (0, 0))) ∧
    (matchTotalsV2Chk user_skills data.skills
      = some (data.skills.foldl (matchStepV2 user_skills) (0, 0))) ∧
    (readinessTotalChk user_skills practice_freq data.skills
      = some (data.skills.foldl (readinessStep user_skills practice_freq) 0)) ∧
    (career_match_pct_chk user_skills practice_freq data
      = some (career_match_pct user_skills practice_freq data)) ∧
    (career_match_pct_v2_chk user_skills data
      = some (career_match_pct_v2 user_skills data)) := by
  have htot : ∀ l : List (String × ℤ), ∀ t : ℚ × ℚ,
      l.foldl (fun acc p => acc.bind fun t =>
        (skill_match_chk user_skills practice_freq p).map fun m =>
          (t.1 + m * skill_weight p, t.2 + skill_weight p)) (some t)
        = some (l.foldl (matchStep user_skills practice_freq) t) := by
    intro l
    induction l with
    | nil => intro t; rfl
    | cons p rest ih =>
        intro t
        rw [List.foldl_cons, List.foldl_cons]
        have hstep : ((some t).bind fun a =>
            (skill_match_chk user_skills practice_freq p).map fun m =>
              (a.1 + m * skill_weight p, a.2 + skill_weight p))
            = some (matchStep user_skills practice_freq t p) := by
          rw [Option.some_bind, skill_match_chk_some]
          rfl
        rw [hstep]
        exact ih _
  have htot2 : ∀ l : List (String × ℤ), ∀ t : ℚ × ℚ,
      l.foldl (fun acc p => acc.bind fun t =>
        (skill_match_raw_chk user_skills p).map fun m =>
          (t.1 + m * skill_weight p, t.2 + skill_weight p)) (some t)
        = some (l.foldl (matchStepV2 user_skills) t) := by
    intro l
    induction l with
    | nil => intro t; rfl
    | cons p rest ih =>
        intro t
        rw [List.foldl_cons, List.foldl_cons]
        have hstep : ((some t).bind fun a =>
            (skill_match_raw_chk user_skills p).map fun m =>
              (a.1 + m * skill_weight p, a.2 + skill_weight p))
            = some (matchStepV2 user_skills t p) := by
          rw [Option.some_bind, skill_match_raw_chk_some]
          rfl
        rw [hstep]
        exact ih _
  have htot3 : ∀ l : List (String × ℤ), ∀ t : ℚ,
      l.foldl (fun acc p => acc.bind fun t =>
        (skill_match_chk user_skills practice_freq p).map fun m => t + m) (some t)
        = some (l.foldl (readinessStep user_skills practice_freq) t) := by
    intro l
    induction l with
    | nil => intro t; rfl
    | cons p rest ih =>
        intro t
        rw [List.foldl_cons, List.foldl_cons]
        have hstep : ((some t).bind fun a =>
            (skill_match_chk user_skills practice_freq p).map fun m => a + m)
            = some (readinessStep user_skills practice_freq t p) := by
          rw [Option.some_bind, skill_match_chk_some]
          rfl
        rw [hstep]
        exact ih _
  refine ⟨fun p hp => ?_, htot _ _, htot2 _ _, htot3 _ _, ?_, ?_⟩
  · refine ⟨?_, ?_, ?_⟩
    · unfold skill_match
      rw [if_neg (by rw [hp]; exact lt_irrefl 0)]
    · unfold skill_match_raw
      rw [if_neg (by rw [hp]; exact lt_irrefl 0)]
    · unfold skill_weight
      rw [hp]
      norm_num
  · unfold career_match_pct_chk career_match_pct
    rw [matchTotalsChk, htot, Option.some_bind]
    dsimp only
    split_ifs with h
    · unfold qdiv
      rw [if_neg (ne_of_gt h)]
      rfl
    · rfl
  · unfold career_match_pct_v2_chk career_match_pct_v2
    rw [matchTotalsV2Chk, htot2, Option.some_bind]
    dsimp only
    split_ifs with h
    · unfold qdiv
      rw [if_neg (ne_of_gt h)]
      rfl
    · rfl

/-- Witness for C10 at a required level of 0 on a skill the user rated
90: match 1 and weight 0, with no division performed. -/
theorem no_division_by_zero_witness :
    skill_match [("A", 90)] [] ("A", 0) = 1 ∧
    skill_match_raw [("A", 90)] ("A", 0) = 1 ∧
    skill_weight ("A", 0) = 0 :=
  (no_division_by_zero [("A", 90)] [] cexData).1 ("A", 0) rfl

/-- Python dictionary assignment `m[k] = v`: replace the value in place
when the key exists (keeping its position), otherwise append. -/
def dset {α : Type} (m : List (String × α)) (k : String) (v : α) : List (String × α) :=
  match m with
  | [] => [(k, v)]
  | (k', v') :: rest => if k' = k then (k, v) :: rest else (k', v') :: dset rest k v

/-- One `all_gaps` update, embedded from the v2 Course Recommendations tab:
`if skill not in all_gaps or info['gap'] > all_gaps[skill]['gap']:
all_gaps[skill] = info`. -/
def gapUpdate (m : List (String × GapRecord)) (p : String × GapRecord) :
    List (String × GapRecord) :=
  match dget m p.1 with
  | none => dset m p.1 p.2
  | some old => if old.gap < p.2.gap then dset m p.1 p.2 else m

/-- The body of the v2 Course Recommendations loop over one target career:
careers absent from the catalog are skipped. -/
def gapFold (career_data : List (String × CareerData)) (user_skills : List (String × ℤ))
    (acc : List (String × GapRecord)) (career : String) : List (String × GapRecord) :=
  if (dget career_data career).isSome then
    (calculate_skill_gaps career_data user_skills career).foldl gapUpdate acc
  else acc

/-- The de-duplicated `all_gaps` map built across all target careers,
embedded from the v2 Course Recommendations tab. -/
def all_gaps (career_data : List (String × CareerData)) (user_skills : List (String × ℤ))
    (target_careers : List String) : List (String × GapRecord) :=
  target_careers.foldl (gapFold career_data user_skills) []

/-- The priority rank `{'High': 0, 'Medium': 1, 'Low': 2}` used by the
course-recommendation sort. -/
def priority_order (p : Priority) : ℕ :=
  match p with
  | Priority.High => 0
  | Priority.Medium => 1
  | Priority.Low => 2

/-- Comparison modelling Python's ascending sort key
`(priority_order[priority], -gap)`. -/
def gapSortLe (a b : String × GapRecord) : Bool :=
  decide (priority_order a.2.priority < priority_order b.2.priority ∨
    (priority_order a.2.priority = priority_order b.2.priority ∧ b.2.gap ≤ a.2.gap))

/-- The sorted recommendation list of the v2 Course Recommendations tab
(`sorted(all_gaps.items(), key=...)`, a stable sort). -/
def sorted_gaps (career_data : List (String × CareerData)) (user_skills : List (String × ℤ))
    (target_careers : List String) : List (String × GapRecord) :=
  (all_gaps career_data user_skills target_careers).mergeSort gapSortLe

/-- Merge of two optional gap values keeping the larger, written from the
spec's words for §4.6 de-duplication. -/
def omerge (a b : Option ℤ) : Option ℤ :=
  match a, b with
  | none, b => b
  | a, none => a
  | some x, some y => some (max x y)

/-- The largest gap value recorded for a skill across the target careers
(the spec's "keep the GapRecord with the largest gap value across all
target careers"); `none` when no present target requires the skill. -/
def maxGapAcross (career_data : List (String × CareerData))
    (user_skills : List (String × ℤ)) : List String → String → Option ℤ
  | [], _ => none
  | career :: rest, skill =>
      omerge ((dget (calculate_skill_gaps career_data user_skills career) skill).map
          GapRecord.gap)
        (maxGapAcross career_data user_skills rest skill)

/-- Merging with nothing on the right is the identity. -/
theorem omerge_none (a : Option ℤ) : omerge a none = a := by
  cases a <;> rfl

/-- Merging with nothing on the left is the identity. -/
theorem omerge_none_left (b : Option ℤ) : omerge none b = b := by
  cases b <;> rfl

/-- Lookup in the empty dictionary finds nothing. -/
theorem dget_nil {α : Type} (k : String) : dget ([] : List (String × α)) k = none := rfl

/-- The optional-max merge is associative. -/
theorem omerge_assoc (a b c : Option ℤ) : omerge (omerge a b) c = omerge a (omerge b c) := by
  cases a <;> cases b <;> cases c <;> simp [omerge, max_assoc]

/-- Setting a key makes it present with the new value. -/
theorem dget_dset_self {α : Type} (m : List (String × α)) (k : String) (v : α) :
    dget (dset m k v) k = some v := by
  induction m with
  | nil => simp [dset, dget]
  | cons p rest ih =>
      by_cases h : p.1 = k
      · simp [dset, dget, h]
      · simp [dset, dget, h, ih]

/-- Setting a key leaves every other lookup unchanged. -/
theorem dget_dset_ne {α : Type} (m : List (String × α)) (k k' : String) (v : α)
    (h : k ≠ k') : dget (dset m k v) k' = dget m k' := by
  induction m with
  | nil => simp [dset, dget, h]
  | cons p rest ih =>
      by_cases hp : p.1 = k
      · subst hp
        simp [dset, dget, h]
      · simp only [dset, if_neg hp]
        by_cases hp' : p.1 = k'
        · simp [dget, hp']
        · simp [dget, hp', ih]

/-- A key is absent exactly when it is not among the stored keys. -/
theorem dget_eq_none_iff {α : Type} (m : List (String × α)) (k : String) :
    dget m k = none ↔ k ∉ m.map Prod.fst := by
  induction m with
  | nil => simp [dget]
  | cons p rest ih =>
      by_cases h : p.1 = k
      · simp [dget, h]
      · simp [dget, h, ih, Ne.symm h]

/-- A successful lookup comes from a stored pair. -/
theorem dget_mem {α : Type} (m : List (String × α)) (k : String) (v : α)
    (h : dget m k = some v) : (k, v) ∈ m := by
  induction m with
  | nil => simp [dget] at h
  | cons p rest ih =>
      obtain ⟨a, b⟩ := p
      by_cases hp : a = k
      · subst hp
        simp only [dget, if_pos rfl] at h
        cases Option.some.inj h
        exact List.mem_cons_self _ _
      · simp only [dget, if_neg hp] at h
        exact List.mem_cons_of_mem _ (ih h)

/-- The keys after a set: unchanged when present, appended when new. -/
theorem dset_map_fst {α : Type} (m : List (String × α)) (k : String) (v : α) :
    (dset m k v).map Prod.fst
      = if k ∈ m.map Prod.fst then m.map Prod.fst else m.map Prod.fst ++ [k] := by
  induction m with
  | nil => simp [dset]
  | cons p rest ih =>
      by_cases h : p.1 = k
      · simp [dset, h]
      · simp only [dset, if_neg h, List.map_cons, ih, List.mem_cons]
        by_cases hm : k ∈ rest.map Prod.fst
        · simp [hm, Ne.symm h]
        · simp [hm, Ne.symm h]

/-- Setting a key preserves distinctness of the keys. -/
theorem dset_nodup {α : Type} (m : List (String × α)) (k : String) (v : α)
    (h : (m.map Prod.fst).Nodup) : ((dset m k v).map Prod.fst).Nodup := by
  rw [dset_map_fst]
  split_ifs with hm
  · exact h
  · refine List.Nodup.append h (List.nodup_singleton k) ?_
    intro x hx hk
    rw [List.mem_singleton] at hk
    subst hk
    exact hm hx

/-- A gap update preserves distinctness of the keys. -/
theorem gapUpdate_nodup (m : List (String × GapRecord)) (p : String × GapRecord)
    (h : (m.map Prod.fst).Nodup) : ((gapUpdate m p).map Prod.fst).Nodup := by
  unfold gapUpdate
  cases dget m p.1 with
  | none => exact dset_nodup m p.1 p.2 h
  | some old =>
      show ((if old.gap < p.2.gap then dset m p.1 p.2 else m).map Prod.fst).Nodup
      split_ifs
      · exact dset_nodup m p.1 p.2 h
      · exact h

/-- A gap update for one skill leaves other lookups unchanged. -/
theorem dget_gapUpdate_ne (m : List (String × GapRecord)) (p : String × GapRecord)
    (k : String) (h : p.1 ≠ k) : dget (gapUpdate m p) k = dget m k := by
  unfold gapUpdate
  cases hd : dget m p.1 with
  | none => exact dget_dset_ne m p.1 k p.2 h
  | some old =>
      show dget (if old.gap < p.2.gap then dset m p.1 p.2 else m) k = dget m k
      split_ifs
      · exact dget_dset_ne m p.1 k p.2 h
      · rfl

/-- The lookup after one gap update: a new skill is stored; an existing
one is replaced exactly when the new gap is strictly larger. -/
theorem dget_gapUpdate_self (m : List (String × GapRecord)) (k : String) (rec : GapRecord) :
    dget (gapUpdate m (k, rec)) k
      = some (match dget m k with
          | none => rec
          | some old => if old.gap < rec.gap then rec else old) := by
  unfold gapUpdate
  cases hd : dget m k with
  | none => exact dget_dset_self m k rec
  | some old =>
      show dget (if old.gap < rec.gap then dset m k rec else m) k = _
      split_ifs with hlt
      · rw [dget_dset_self]
        show some rec = some (if old.gap < rec.gap then rec else old)
        rw [if_pos hlt]
      · rw [hd]
        show some old = some (if old.gap < rec.gap then rec else old)
        rw [if_neg hlt]

/-- Folding gap updates for skills other than `k` leaves `k`'s lookup
unchanged. -/
theorem dget_foldl_gapUpdate_not_mem (g : List (String × GapRecord)) (k : String)
    (h : k ∉ g.map Prod.fst) :
    ∀ m : List (String × GapRecord), dget (g.foldl gapUpdate m) k = dget m k := by
  induction g with
  | nil => intro m; rfl
  | cons p rest ih =>
      intro m
      simp only [List.map_cons, List.mem_cons, not_or] at h
      rw [List.foldl_cons, ih h.2, dget_gapUpdate_ne m p k fun he => h.1 he.symm]

/-- Value-level effect of folding one career's gap records (with distinct
keys) into the map: each stored gap becomes the max of old and new. -/
theorem dget_foldl_gapUpdate_gap (g : List (String × GapRecord))
    (hnd : (g.map Prod.fst).Nodup) (k : String) :
    ∀ m : List (String × GapRecord),
      (dget (g.foldl gapUpdate m) k).map GapRecord.gap
        = omerge ((dget m k).map GapRecord.gap) ((dget g k).map GapRecord.gap) := by
  induction g with
  | nil => intro m; rw [List.foldl_nil]; show _ = omerge _ none; rw [omerge_none]
  | cons p rest ih =>
      obtain ⟨a, rec⟩ := p
      rw [List.map_cons] at hnd
      have ha : a ∉ rest.map Prod.fst := (List.nodup_cons.mp hnd).1
      have hrest : (rest.map Prod.fst).Nodup := (List.nodup_cons.mp hnd).2
      intro m
      rw [List.foldl_cons]
      by_cases hk : a = k
      · subst hk
        rw [dget_foldl_gapUpdate_not_mem rest a ha, dget_gapUpdate_self]
        have hg : dget ((a, rec) :: rest) a = some rec := by simp [dget]
        rw [hg]
        cases hm : dget m a with
        | none => rfl
        | some old =>
            show some (if old.gap < rec.gap then rec else old).gap
              = some (max old.gap rec.gap)
            by_cases hlt : old.gap < rec.gap
            · rw [if_pos hlt, max_eq_right (le_of_lt hlt)]
            · rw [if_neg hlt, max_eq_left (le_of_not_lt hlt)]
      · have hg : dget ((a, rec) :: rest) k = dget rest k := by simp [dget, hk]
        rw [hg, ih hrest (gapUpdate m (a, rec)), dget_gapUpdate_ne m (a, rec) k hk]

/-- The `all_gaps` fold keeps, for every skill, the largest gap across the
processed targets. -/
theorem dget_all_gaps_gap (career_data : List (String × CareerData))
    (user_skills : List (String × ℤ))
    (hnd : ∀ p ∈ career_data, (p.2.skills.map Prod.fst).Nodup)
    (target_careers : List String) (k : String) :
    ∀ m : List (String × GapRecord),
      (dget (target_careers.foldl (gapFold career_data user_skills) m) k).map GapRecord.gap
        = omerge ((dget m k).map GapRecord.gap)
            (maxGapAcross career_data user_skills target_careers k) := by
  induction target_careers with
  | nil =>
      intro m
      rw [List.foldl_nil, maxGapAcross, omerge_none]
  | cons c rest ih =>
      intro m
      rw [List.foldl_cons, maxGapAcross]
      cases hc : dget career_data c with
      | none =>
          have hstep : gapFold career_data user_skills m c = m := by
            unfold gapFold
            rw [hc]
            simp
          have hg : calculate_skill_gaps career_data user_skills c = [] := by
            unfold calculate_skill_gaps
            rw [hc]
          rw [hstep, ih m, hg, dget_nil, Option.map_none', omerge_none_left]
      | some data =>
          have hstep : gapFold career_data user_skills m c
              = (calculate_skill_gaps career_data user_skills c).foldl gapUpdate m := by
            unfold gapFold
            rw [hc]
            simp
          have hmem := dget_mem career_data c data hc
          have hskills : ((calculate_skill_gaps career_data user_skills c).map Prod.fst).Nodup := by
            have hg : calculate_skill_gaps career_data user_skills c
                = data.skills.map fun p =>
                    (p.1, mkGapRecord ((dget user_skills p.1).getD 0) p.2) := by
              unfold calculate_skill_gaps
              rw [hc]
            rw [hg,
              map_fst_map data.skills fun a v => mkGapRecord ((dget user_skills a).getD 0) v]
            exact hnd _ hmem
          rw [hstep, ih ((calculate_skill_gaps career_data user_skills c).foldl gapUpdate m),
            dget_foldl_gapUpdate_gap _ hskills k m, omerge_assoc]

/-- The gap-recommendation comparison is transitive. -/
theorem gapSortLe_trans (a b c : String × GapRecord)
    (hab : gapSortLe a b = true) (hbc : gapSortLe b c = true) : gapSortLe a c = true := by
  unfold gapSortLe at *
  simp only [decide_eq_true_eq] at *
  omega

/-- The gap-recommendation comparison is total. -/
theorem gapSortLe_total (a b : String × GapRecord) :
    (gapSortLe a b || gapSortLe b a) = true := by
  unfold gapSortLe
  simp only [Bool.or_eq_true, decide_eq_true_eq]
  omega

/-- Claim C7: the course recommender's gap map is de-duplicated — its keys
are pairwise distinct, so a skill required by several target careers
appears exactly once — and for every skill the stored gap value is the
largest gap across all catalog-present target careers; the returned list
is that map sorted primarily by priority rank ascending (High = 0,
Medium = 1, Low = 2) and secondarily by gap value descending (a
permutation of the gap map, so nothing is added or lost).  The hypothesis
states that each catalog entry's required-skill keys are distinct, as
Python dict keys are. -/
theorem sorted_gaps_spec (career_data : List (String × CareerData))
    (user_skills : List (String × ℤ)) (target_careers : List String)
    (hnd : ∀ p ∈ career_data, (p.2.skills.map Prod.fst).Nodup) :
    (((sorted_gaps career_data user_skills target_careers).map Prod.fst).Nodup) ∧
    ((sorted_gaps career_data user_skills target_careers).Perm
      (all_gaps career_data user_skills target_careers)) ∧
    ((sorted_gaps career_data user_skills target_careers).Pairwise fun a b =>
      priority_order a.2.priority < priority_order b.2.priority ∨
        (priority_order a.2.priority = priority_order b.2.priority ∧ b.2.gap ≤ a.2.gap)) ∧
    (∀ skill : String,
      (dget (all_gaps career_data user_skills target_careers) skill).map GapRecord.gap
        = maxGapAcross career_data user_skills target_careers skill) := by
  have hperm : (sorted_gaps career_data user_skills target_careers).Perm
      (all_gaps career_data user_skills target_careers) := List.mergeSort_perm _ _
  have hnodup : ((all_gaps career_data user_skills target_careers).map Prod.fst).Nodup := by
    unfold all_gaps
    have hmain : ∀ (ts : List String) (m : List (String × GapRecord)),
        (m.map Prod.fst).Nodup →
        ((ts.foldl (gapFold career_data user_skills) m).map Prod.fst).Nodup := by
      intro ts
      induction ts with
      | nil => intro m hm; exact hm
      | cons c rest ih =>
          intro m hm
          rw [List.foldl_cons]
          refine ih _ ?_
          unfold gapFold
          split_ifs
          · have hinner : ∀ (g : List (String × GapRecord)) (m : List (String × GapRecord)),
                (m.map Prod.fst).Nodup → ((g.foldl gapUpdate m).map Prod.fst).Nodup := by
              intro g
              induction g with
              | nil => intro m hm; exact hm
              | cons p r ihg =>
                  intro m hm
                  rw [List.foldl_cons]
                  exact ihg _ (gapUpdate_nodup m p hm)
            exact hinner _ _ hm
          · exact hm
    exact hmain target_careers [] (by simp)
  refine ⟨(hperm.map Prod.fst).nodup_iff.mpr hnodup, hperm, ?_, fun skill => ?_⟩
  · refine (List.sorted_mergeSort gapSortLe_trans gapSortLe_total _).imp ?_
    intro a b h
    have hd := of_decide_eq_true h
    exact hd
  · unfold all_gaps
    rw [dget_all_gaps_gap career_data user_skills hnd target_careers skill [],
      dget_nil, Option.map_none', omerge_none_left]

/-- Witness for C7 on the sample catalog: skill "B" is required by both
sample careers (gap 50 in the first, 90 in the second), and the stored gap
value is their maximum across the targets. -/
theorem sorted_gaps_spec_witness :
    (dget (all_gaps sampleCareers sampleUser ["Data Analyst", "QA Tester"]) "B").map
        GapRecord.gap
      = maxGapAcross sampleCareers sampleUser ["Data Analyst", "QA Tester"] "B" :=
  (sorted_gaps_spec sampleCareers sampleUser ["Data Analyst", "QA Tester"]
    (by decide)).2.2.2 "B"
